import Mathlib

/-!
Shallow embedding of the eemeter weather module.

Source files embedded:
* `src/eemeter/weather.py` — legacy weather sources (`WeatherSourceBase`,
  `GSODWeatherSource`, `ISDWeatherSource`): dict-backed temperature data and
  per-consumption interval averages.
* `src/eemeter/weather/noaa.py` — cached NOAA weather sources
  (`NOAAWeatherSourceBase`, `GSODWeatherSource`, `ISDWeatherSource`):
  a pandas time series merged year by year, with a per-session attempted set.

Modelling conventions:
* Temperatures are rationals (`ℚ`); a float NaN / pandas null is `Option.none`.
* Timestamps in the legacy `weather.py` model are hours since an epoch
  (`datetime` arithmetic is linear time; `strftime` keys are injective in it).
* Timestamps in the `noaa.py` model are day codes `366 * year + dayOfYear`
  (daily GSOD series) or hour codes `8784 * year + hourOfYear` (hourly ISD
  series); both encodings are strictly monotone in calendar order and
  injective, with `dayOfYear < daysInYear year` for real calendar days.
* A pandas `Series` is a list of `(timestamp, Option ℚ)` pairs, in index
  order, possibly with duplicate timestamps right after an `append`;
  `resample(freq).mean()` produces one bucket per timestamp between the
  minimum and the maximum of the index, averaging the non-null points of
  each bucket, `none` when a bucket has no non-null point.
* The remote client (`eemeter.weather.clients`, not part of the sources
  embedded here) is an oracle parameter `client : Nat → List _` giving the
  records it returns for a year.  The durable cache
  (`eemeter.weather.cache.CachedWeatherSourceBase`, also external) is
  modelled from the spec: `save` atomically overwrites the stored series,
  kept in the `cachedSeries` field.
-/

/-- Temperature units recognized by the spec: degF and degC. -/
inductive TUnit : Type
  | degC : TUnit
  | degF : TUnit
deriving DecidableEq, Repr

/-- Unit conversion, the spec's pure collaborator
`convert(value, from_unit, to_unit)`; linear: `degF = degC * 9 / 5 + 32`. -/
def convert : TUnit → TUnit → ℚ → ℚ
  | TUnit.degC, TUnit.degF, x => x * 9 / 5 + 32
  | TUnit.degF, TUnit.degC, x => (x - 32) * 5 / 9
  | TUnit.degC, TUnit.degC, x => x
  | TUnit.degF, TUnit.degF, x => x

/-- Arithmetic mean of a list of rationals (`0` on the empty list, which the
callers below never expose: they return `none` instead). -/
def listMean (xs : List ℚ) : ℚ := xs.sum / (xs.length : ℚ)

/-- `numpy.mean` over a list of float temperatures where `none` is NaN:
NaN if the list is empty or contains a NaN, else the arithmetic mean. -/
def npMean (xs : List (Option ℚ)) : Option ℚ :=
  if xs.isEmpty || xs.any (fun x => x.isNone) then none
  else some (listMean (xs.filterMap id))

/-- `numpy.ma.mean` over a list where the NaN entries (`none`) are masked
out: the mean of the non-NaN entries, undefined (`none`) if all are masked. -/
def npMaskedMean (xs : List (Option ℚ)) : Option ℚ :=
  if (xs.filterMap id).isEmpty then none
  else some (listMean (xs.filterMap id))

/-- A `Consumption` period of `eemeter`: a start instant (hours since the
epoch) and a `timedelta` split as pandas does into whole days and leftover
seconds (`0 ≤ seconds < 86400`). -/
structure Consumption : Type where
  start : Nat
  days : Nat
  seconds : Nat
deriving DecidableEq, Repr

/-- The dictionary-lookup loop shared by `weather.py` retrieval methods:
collect `self._data[k]` for each key; a missing key raises `KeyError`
(`none`).  The value stored for a key is itself an `Option ℚ` (`none` for a
stored float NaN). -/
def collectTemps (data : Nat → Option (Option ℚ)) : List Nat → Option (List (Option ℚ))
  | [] => some []
  | k :: ks =>
    match data k, collectTemps data ks with
    | some t, some ts => some (t :: ts)
    | _, _ => none

/-- `GSODWeatherSource.get_consumption_average_temperature`
(src/eemeter/weather.py lines 66–74).  Daily resolution; the data dict is
keyed by day (`strftime("%Y%m%d")`, here `hours / 24`), the stored unit is
degF, and a missing day raises `KeyError` (`Except.error ()`).  When all
lookups succeed the result is `np.mean` of the per-day values converted to
the requested unit. -/
def gsod_get_consumption_average_temperature
    (data : Nat → Option (Option ℚ)) (c : Consumption) (unit : TUnit) :
    Except Unit (Option ℚ) :=
  match collectTemps data ((List.range c.days).map (fun i => (c.start + 24 * i) / 24)) with
  | none => Except.error ()
  | some temps => Except.ok (npMean (temps.map (Option.map (convert TUnit.degF unit))))

/-- `ISDWeatherSource.get_consumption_average_temperature`
(src/eemeter/weather.py lines 119–133).  Hourly resolution; the dict is keyed
by hour (`strftime("%Y%m%d%H")`), the stored unit is degC, a missing hour
defaults to NaN (`dict.get(key, null)`), and the NaN entries are masked out
of the mean (`np.ma.masked_array`). -/
def isd_get_consumption_average_temperature
    (data : Nat → Option (Option ℚ)) (c : Consumption) (unit : TUnit) :
    Option ℚ :=
  let n_hours := c.days * 24 + c.seconds / 3600
  npMaskedMean ((List.range n_hours).map
    (fun i => ((data (c.start + i)).getD none).map (convert TUnit.degC unit)))

/-- `WeatherSourceBase.get_average_temperature`
(src/eemeter/weather.py lines 14–24).  Iterates over the consumptions
returned by `consumption_history.get(fuel_type)` (here the list `history`)
in that order, appending the result of the per-consumption virtual method
`f` (`get_consumption_average_temperature`) for each; a `KeyError` raised by
`f` propagates and aborts the loop. -/
def get_average_temperature
    (f : Consumption → Except Unit (Option ℚ)) :
    List Consumption → Except Unit (List (Option ℚ))
  | [] => Except.ok []
  | c :: rest =>
    match f c, get_average_temperature f rest with
    | Except.ok t, Except.ok ts => Except.ok (t :: ts)
    | Except.error e, _ => Except.error e
    | _, Except.error e => Except.error e

/-- Gregorian leap-year rule (the calendar pandas `date_range` follows). -/
def isLeapYear (y : Nat) : Bool :=
  (y % 4 == 0 && y % 100 != 0) || y % 400 == 0

/-- Number of calendar days in a year. -/
def daysInYear (y : Nat) : Nat := if isLeapYear y then 366 else 365

/-- Number of hours in a year. -/
def hoursInYear (y : Nat) : Nat := 24 * daysInYear y

/-- Order-preserving injective code of a calendar day `(year, dayOfYear)`
with `dayOfYear < daysInYear year ≤ 366`. -/
def dayCode (y d : Nat) : Nat := 366 * y + d

/-- Order-preserving injective code of a calendar hour `(year, hourOfYear)`
with `hourOfYear < hoursInYear year ≤ 8784`. -/
def hourCode (y h : Nat) : Nat := 8784 * y + h

/-- Year of a day code (`index.year` for a daily timestamp). -/
def dayCodeYear (t : Nat) : Nat := t / 366

/-- Year of an hour code (`index.year` for an hourly timestamp). -/
def hourCodeYear (t : Nat) : Nat := t / 8784

/-- The calendar day before `(y, d)` (`date.today() - timedelta(days=1)`). -/
def predDay (y d : Nat) : Nat × Nat :=
  if d = 0 then (y - 1, daysInYear (y - 1) - 1) else (y, d - 1)

/-- Index (timestamp list) of a pandas series. -/
def seriesTimes (pts : List (Nat × Option ℚ)) : List Nat := pts.map Prod.fst

/-- Label lookup in a series: the value at the first occurrence of the
timestamp, `none` if the timestamp is absent from the index. -/
def lookupSeries : List (Nat × Option ℚ) → Nat → Option (Option ℚ)
  | [], _ => none
  | p :: ps, t => if p.1 = t then some p.2 else lookupSeries ps t

/-- Label assignment `series[k] = v`: overwrite the entries at an existing
label, or append a new `(k, v)` row when the label is absent. -/
def setVal (l : List (Nat × Option ℚ)) (k : Nat) (v : Option ℚ) :
    List (Nat × Option ℚ) :=
  if k ∈ seriesTimes l then l.map (fun p => if p.1 = k then (k, v) else p)
  else l ++ [(k, v)]

/-- All values stored in a series at a given timestamp (a resample bucket's
raw points; timestamps are bucket-aligned throughout this development). -/
def bucketVals : List (Nat × Option ℚ) → Nat → List (Option ℚ)
  | [], _ => []
  | p :: ps, t => if p.1 = t then p.2 :: bucketVals ps t else bucketVals ps t

/-- Mean of a resample bucket: null points are excluded; a bucket with no
non-null point is null. -/
def bucketMean (xs : List (Option ℚ)) : Option ℚ :=
  if (xs.filterMap id).isEmpty then none
  else some (listMean (xs.filterMap id))

/-- Minimum of a list of timestamps (`0` on the empty list, unused). -/
def listMin : List Nat → Nat
  | [] => 0
  | [t] => t
  | t :: u :: ts => min t (listMin (u :: ts))

/-- Maximum of a list of timestamps (`0` on the empty list, unused). -/
def listMax : List Nat → Nat
  | [] => 0
  | [t] => t
  | t :: u :: ts => max t (listMax (u :: ts))

/-- The run of `n` consecutive buckets starting at `lo`, valued by `f`. -/
def denseFrom (f : Nat → Option ℚ) : Nat → Nat → List (Nat × Option ℚ)
  | _, 0 => []
  | lo, n + 1 => (lo, f lo) :: denseFrom f (lo + 1) n

/-- `series.resample(freq).mean()`: one bucket per timestamp from the
minimum to the maximum of the index, each holding the mean of the non-null
points at that timestamp (`none` when there is none). -/
def resampleMean (pts : List (Nat × Option ℚ)) : List (Nat × Option ℚ) :=
  match pts with
  | [] => []
  | _ :: _ =>
    denseFrom (fun t => bucketMean (bucketVals pts t))
      (listMin (seriesTimes pts))
      (listMax (seriesTimes pts) - listMin (seriesTimes pts) + 1)

/-- The merge step `self.tempC.append(new_series).sort_index()
.resample(self.freq).mean()` used by both `add_year` methods of
src/eemeter/weather/noaa.py (sorting is subsumed: the resampled output is in
index order). -/
def mergeAppend (old new : List (Nat × Option ℚ)) : List (Nat × Option ℚ) :=
  resampleMean (old ++ new)

/-- State of a `NOAAWeatherSourceBase` instance: the per-session
`_year_fetches_attempted` set, the `tempC` series, the durable cache
contents (modelled from the spec: `save_to_cache` atomically overwrites the
stored series), and an observation log of the years for which a remote
fetch was issued, in order. -/
structure WeatherState : Type where
  attempted : List Nat
  tempC : List (Nat × Option ℚ)
  cachedSeries : Option (List (Nat × Option ℚ))
  fetchLog : List Nat
deriving DecidableEq, Repr

/-- Python `set.add`. -/
def insertYear (y : Nat) (l : List Nat) : List Nat :=
  if y ∈ l then l else l ++ [y]

/-- One record of `client.get_gsod_data(station, year)`: a day code and a
temperature in degC (`none` for NaN). -/
structure GsodDay : Type where
  date : Nat
  temp_C : Option ℚ
deriving DecidableEq, Repr

/-- One record of `client.get_isd_data(station, year)`: an hour code (the
source truncates the record's datetime to the hour) and a temperature in
degC (`none` for NaN). -/
structure IsdHour : Type where
  dt : Nat
  temp_C : Option ℚ
deriving DecidableEq, Repr

/-- `GSODWeatherSource._empty_series` (noaa.py lines 122–126): an all-null
daily series over `date_range(Jan 1, Dec 31)` of the year. -/
def gsod_empty_series (year : Nat) : List (Nat × Option ℚ) :=
  denseFrom (fun _ => none) (dayCode year 0) (daysInYear year)

/-- `ISDWeatherSource._empty_series` (noaa.py lines 170–174): an all-null
hourly series over `date_range(Jan 1, Jan 1 of year+1)[:-1]`. -/
def isd_empty_series (year : Nat) : List (Nat × Option ℚ) :=
  denseFrom (fun _ => none) (hourCode year 0) (hoursInYear year)

/-- The loop of `GSODWeatherSource.add_year` that writes the fetched
records into the fresh year series, skipping null readings. -/
def gsod_new_series (data : List GsodDay) (year : Nat) : List (Nat × Option ℚ) :=
  data.foldl
    (fun acc day => if day.temp_C.isSome then setVal acc day.date day.temp_C else acc)
    (gsod_empty_series year)

/-- The loop of `ISDWeatherSource.add_year` that writes the fetched records
into the fresh year series, skipping null readings. -/
def isd_new_series (data : List IsdHour) (year : Nat) : List (Nat × Option ℚ) :=
  data.foldl
    (fun acc hour => if hour.temp_C.isSome then setVal acc hour.dt hour.temp_C else acc)
    (isd_empty_series year)

/-- `NOAAWeatherSourceBase._year_in_series` for the GSOD subclass:
`year_existence_format` is Jan 1 of the year, checked for membership in the
series index. -/
def gsod_year_in_series (year : Nat) (pts : List (Nat × Option ℚ)) : Prop :=
  dayCode year 0 ∈ seriesTimes pts

instance (year : Nat) (pts : List (Nat × Option ℚ)) :
    Decidable (gsod_year_in_series year pts) := by
  unfold gsod_year_in_series; infer_instance

/-- `NOAAWeatherSourceBase._year_in_series` for the ISD subclass: Jan 1,
hour 00, checked for membership in the series index. -/
def isd_year_in_series (year : Nat) (pts : List (Nat × Option ℚ)) : Prop :=
  hourCode year 0 ∈ seriesTimes pts

instance (year : Nat) (pts : List (Nat × Option ℚ)) :
    Decidable (isd_year_in_series year pts) := by
  unfold isd_year_in_series; infer_instance

/-- `GSODWeatherSource.add_year` (noaa.py lines 128–160).  With
`force=False` and the year already attempted: return unchanged if the
year's anchor is in the series, else append the all-null year series,
re-sort and resample, and save to cache.  Otherwise fetch from the client
(recorded in `fetchLog`), fill a fresh year series with the non-null
readings, merge, save to cache, and mark the year attempted. -/
def gsod_add_year (client : Nat → List GsodDay) (year : Nat) (force : Bool)
    (s : WeatherState) : WeatherState :=
  if force = false ∧ year ∈ s.attempted then
    if gsod_year_in_series year s.tempC then s
    else
      let t := mergeAppend s.tempC (gsod_empty_series year)
      { s with tempC := t, cachedSeries := some t }
  else
    let t := mergeAppend s.tempC (gsod_new_series (client year) year)
    { attempted := insertYear year s.attempted
      tempC := t
      cachedSeries := some t
      fetchLog := s.fetchLog ++ [year] }

/-- `ISDWeatherSource.add_year` (noaa.py lines 176–206); same shape as the
GSOD version at hourly resolution. -/
def isd_add_year (client : Nat → List IsdHour) (year : Nat) (force : Bool)
    (s : WeatherState) : WeatherState :=
  if force = false ∧ year ∈ s.attempted then
    if isd_year_in_series year s.tempC then s
    else
      let t := mergeAppend s.tempC (isd_empty_series year)
      { s with tempC := t, cachedSeries := some t }
  else
    let t := mergeAppend s.tempC (isd_new_series (client year) year)
    { attempted := insertYear year s.attempted
      tempC := t
      cachedSeries := some t
      fetchLog := s.fetchLog ++ [year] }

/-- `NOAAWeatherSourceBase.add_year_range` (noaa.py lines 33–48),
specialized to the GSOD subclass: `add_year` on each year of
`range(start_year, end_year + 1)`. -/
def gsod_add_year_range (client : Nat → List GsodDay) (startYear endYear : Nat)
    (force : Bool) (s : WeatherState) : WeatherState :=
  (List.range' startYear (endYear + 1 - startYear)).foldl
    (fun st y => gsod_add_year client y force st) s

/-- `NOAAWeatherSourceBase._check_for_recent_data` (noaa.py lines 60–63),
for the GSOD subclass.  `today` is the external clock value as a calendar
day `(year, dayOfYear)`; if yesterday's timestamp is in the series with a
null value, re-fetch yesterday's year with `force=True`. -/
def check_for_recent_data (client : Nat → List GsodDay) (today : Nat × Nat)
    (s : WeatherState) : WeatherState :=
  let yest := predDay today.1 today.2
  match lookupSeries s.tempC (dayCode yest.1 yest.2) with
  | some none => gsod_add_year client yest.1 true s
  | _ => s

/-- `NOAAWeatherSourceBase.__init__` (noaa.py lines 15–31) for the GSOD
subclass: start from the cached series (the cache collaborator is modelled
from the spec: `load` returns the stored series or empty), with an empty
per-session attempted set, add the requested year range if any (using
`date.today().year` for a missing endpoint), then run the freshness check. -/
def gsod_init (client : Nat → List GsodDay) (today : Nat × Nat)
    (startYear endYear : Option Nat) (cached : List (Nat × Option ℚ)) :
    WeatherState :=
  let s0 : WeatherState :=
    { attempted := [], tempC := cached, cachedSeries := some cached, fetchLog := [] }
  let s1 :=
    match startYear, endYear with
    | some a, some b => gsod_add_year_range client a b false s0
    | some a, none => gsod_add_year_range client a today.1 false s0
    | none, some b => gsod_add_year_range client today.1 b false s0
    | none, none => s0
  check_for_recent_data client today s1

/-- Frequency of a pandas `DatetimeIndex` as used by
`indexed_temperatures`: daily, hourly, or any other frequency string. -/
inductive Freq : Type
  | D : Freq
  | H : Freq
  | other : String → Freq
deriving DecidableEq, Repr

/-- A pandas `DatetimeIndex` for `indexed_temperatures`: its declared
frequency, the year of each timestamp, and each timestamp's code at the
granularity the lookup uses. -/
structure DtIndex : Type where
  freq : Freq
  yearsOf : List Nat
  labels : List Nat
deriving DecidableEq, Repr

/-- The spec's unit conversion applied to a series
(`CachedWeatherSourceBase._unit_convert` is outside the embedded sources).
Modelled from the spec: converts each stored degC value to the target unit
with the linear conversion. -/
def unit_convert_series (vals : List (Option ℚ)) (unit : TUnit) : List (Option ℚ) :=
  vals.map (Option.map (convert TUnit.degC unit))

/-- `NOAAWeatherSourceBase._verify_index_presence` (noaa.py lines 107–112)
for the GSOD subclass: nothing to fetch for an empty index, else `add_year`
(non-forced) for each distinct year of the index. -/
def gsod_verify_index_presence (client : Nat → List GsodDay)
    (yearsOf : List Nat) (s : WeatherState) : WeatherState :=
  if yearsOf.isEmpty then s
  else yearsOf.eraseDups.foldl (fun st y => gsod_add_year client y false st) s

/-- `ISDWeatherSource` variant of `_verify_index_presence`. -/
def isd_verify_index_presence (client : Nat → List IsdHour)
    (yearsOf : List Nat) (s : WeatherState) : WeatherState :=
  if yearsOf.isEmpty then s
  else yearsOf.eraseDups.foldl (fun st y => isd_add_year client y false st) s

/-- `NOAAWeatherSourceBase.indexed_temperatures` (noaa.py lines 65–93) for
the GSOD subclass.  After `_verify_index_presence`, dispatch on the index
frequency: daily resamples the series and reads the requested labels
(absent labels read as null), hourly hits the base class
`_hourly_indexed_temperatures` (lines 99–105) which raises `ValueError`,
and any other frequency raises `ValueError`. -/
def gsod_indexed_temperatures (client : Nat → List GsodDay) (index : DtIndex)
    (unit : TUnit) (s : WeatherState) :
    WeatherState × Except String (List (Option ℚ)) :=
  let s1 := gsod_verify_index_presence client index.yearsOf s
  match index.freq with
  | Freq.D =>
    (s1, Except.ok (unit_convert_series
      (index.labels.map (fun t => (lookupSeries (resampleMean s1.tempC) t).join)) unit))
  | Freq.H =>
    (s1, Except.error "DatetimeIndex frequency H not supported, please resample to at least daily frequency D.")
  | Freq.other f =>
    (s1, Except.error ("DatetimeIndex frequency " ++ f ++ " not supported, please resample."))

/-- `indexed_temperatures` for the ISD subclass, whose override of
`_hourly_indexed_temperatures` (noaa.py lines 208–210) serves hourly
indexes instead of raising. -/
def isd_indexed_temperatures (client : Nat → List IsdHour) (index : DtIndex)
    (unit : TUnit) (s : WeatherState) :
    WeatherState × Except String (List (Option ℚ)) :=
  let s1 := isd_verify_index_presence client index.yearsOf s
  match index.freq with
  | Freq.D =>
    (s1, Except.ok (unit_convert_series
      (index.labels.map (fun t => (lookupSeries (resampleMean s1.tempC) t).join)) unit))
  | Freq.H =>
    (s1, Except.ok (unit_convert_series
      (index.labels.map (fun t => (lookupSeries (resampleMean s1.tempC) t).join)) unit))
  | Freq.other f =>
    (s1, Except.error ("DatetimeIndex frequency " ++ f ++ " not supported, please resample."))

/-- Full-year key coverage at daily resolution: every calendar day of the
year is present in the series index. -/
def gsodYearCovered (year : Nat) (pts : List (Nat × Option ℚ)) : Prop :=
  ∀ d < daysInYear year, dayCode year d ∈ seriesTimes pts

/-- Reachability invariant of a GSOD `WeatherState`: every year in the
per-session attempted set is fully keyed in the series.  It holds at
construction (the attempted set starts empty) and is preserved by
`add_year`. -/
def gsodInvariant (s : WeatherState) : Prop :=
  ∀ y ∈ s.attempted, gsodYearCovered y s.tempC

/-! ### Helper lemmas: means, conversion, lookups -/

theorem sum_map_affine (p q : ℚ) (xs : List ℚ) :
    (xs.map (fun x => p * x + q)).sum = p * xs.sum + q * xs.length := by
  induction xs with
  | nil => simp
  | cons a l ih => simp [ih]; ring

theorem listMean_map_affine (p q : ℚ) (xs : List ℚ) (h : xs ≠ []) :
    listMean (xs.map (fun x => p * x + q)) = p * listMean xs + q := by
  have hn : (xs.length : ℚ) ≠ 0 :=
    Nat.cast_ne_zero.mpr (fun hh => h (List.length_eq_zero.mp hh))
  unfold listMean
  rw [List.length_map, sum_map_affine]
  field_simp

theorem convert_listMean (a b : TUnit) (xs : List ℚ) (h : xs ≠ []) :
    listMean (xs.map (convert a b)) = convert a b (listMean xs) := by
  cases a <;> cases b
  · have h1 : xs.map (convert TUnit.degC TUnit.degC) = xs.map id :=
      List.map_congr_left (fun x _ => rfl)
    rw [h1, List.map_id]; rfl
  · have h1 : xs.map (convert TUnit.degC TUnit.degF)
        = xs.map (fun x => (9 / 5 : ℚ) * x + 32) := by
      apply List.map_congr_left; intro x _
      show x * 9 / 5 + 32 = 9 / 5 * x + 32; ring
    rw [h1, listMean_map_affine _ _ _ h]
    show _ = listMean xs * 9 / 5 + 32; ring
  · have h1 : xs.map (convert TUnit.degF TUnit.degC)
        = xs.map (fun x => (5 / 9 : ℚ) * x + (-160 / 9)) := by
      apply List.map_congr_left; intro x _
      show (x - 32) * 5 / 9 = 5 / 9 * x + -160 / 9; ring
    rw [h1, listMean_map_affine _ _ _ h]
    show _ = (listMean xs - 32) * 5 / 9; ring
  · have h1 : xs.map (convert TUnit.degF TUnit.degF) = xs.map id :=
      List.map_congr_left (fun x _ => rfl)
    rw [h1, List.map_id]; rfl

theorem npMean_map_some (xs : List ℚ) (h : xs ≠ []) :
    npMean (xs.map some) = some (listMean xs) := by
  have hf : (xs.map some).filterMap id = xs := by simp
  unfold npMean
  rw [hf, if_neg (by simp [h])]

theorem npMaskedMean_map_some (xs : List ℚ) (h : xs ≠ []) :
    npMaskedMean (xs.map some) = some (listMean xs) := by
  have hf : (xs.map some).filterMap id = xs := by simp
  unfold npMaskedMean
  rw [hf, if_neg (by simp [h])]

theorem collectTemps_of_map_eq (data : Nat → Option (Option ℚ)) (keyf : Nat → Nat) :
    ∀ (l : List Nat) (ws : List (Option ℚ)),
      l.map (fun i => data (keyf i)) = ws.map some →
      collectTemps data (l.map keyf) = some ws := by
  intro l
  induction l with
  | nil =>
    intro ws h
    cases ws with
    | nil => simp [collectTemps]
    | cons w ws => simp at h
  | cons i l ih =>
    intro ws h
    cases ws with
    | nil => simp at h
    | cons w ws =>
      simp only [List.map_cons, List.cons.injEq] at h
      simp only [List.map_cons, collectTemps, h.1, ih ws h.2]

theorem npMean_replicate_none (n : Nat) :
    npMean (List.replicate n none) = none := by
  cases n with
  | zero => simp [npMean]
  | succ m => simp [npMean, List.replicate_succ]

theorem filterMap_id_replicate_none (n : Nat) :
    (List.replicate n (none : Option ℚ)).filterMap id = [] := by
  induction n with
  | zero => simp
  | succ m ih => simp [List.replicate_succ, ih]

/-! ### Claims C1, C3, C9 (src/eemeter/weather.py) -/

/-- C1: over an interval whose constituent sub-periods (daily for GSOD,
hourly for ISD) all have known non-null temperature values in the stored
series, `get_consumption_average_temperature` returns exactly the
arithmetic mean of those values converted to the requested target unit
(conversion being affine, the mean of the converted values is the converted
mean). -/
theorem C1_average_over_full_coverage
    (dataG dataI : Nat → Option (Option ℚ)) (c c' : Consumption) (u : TUnit)
    (vsG vsI : List ℚ)
    (hG : (List.range c.days).map (fun i => dataG ((c.start + 24 * i) / 24))
        = vsG.map (fun v => some (some v)))
    (hGne : vsG ≠ [])
    (hI : (List.range (c'.days * 24 + c'.seconds / 3600)).map (fun i => dataI (c'.start + i))
        = vsI.map (fun v => some (some v)))
    (hIne : vsI ≠ []) :
    gsod_get_consumption_average_temperature dataG c u
        = Except.ok (some (convert TUnit.degF u (listMean vsG)))
    ∧ isd_get_consumption_average_temperature dataI c' u
        = some (convert TUnit.degC u (listMean vsI)) := by
  constructor
  · have hc : collectTemps dataG ((List.range c.days).map (fun i => (c.start + 24 * i) / 24))
        = some (vsG.map some) := by
      apply collectTemps_of_map_eq
      rw [List.map_map]
      exact hG
    have h2 : (vsG.map some).map (Option.map (convert TUnit.degF u))
        = (vsG.map (convert TUnit.degF u)).map some := by
      rw [List.map_map, List.map_map]
      exact List.map_congr_left (fun x _ => rfl)
    unfold gsod_get_consumption_average_temperature
    rw [hc]
    show Except.ok (npMean ((vsG.map some).map (Option.map (convert TUnit.degF u)))) = _
    rw [h2, npMean_map_some _ (by simp [hGne]),
      convert_listMean _ _ _ hGne]
  · have h3 : (List.range (c'.days * 24 + c'.seconds / 3600)).map
        (fun i => ((dataI (c'.start + i)).getD none).map (convert TUnit.degC u))
        = (vsI.map (convert TUnit.degC u)).map some := by
      have h4 := congrArg
        (List.map (fun o : Option (Option ℚ) => (o.getD none).map (convert TUnit.degC u))) hI
      rw [List.map_map, List.map_map] at h4
      refine Eq.trans ?_ (h4.trans ?_)
      · exact List.map_congr_left (fun i _ => rfl)
      · rw [List.map_map]
        exact List.map_congr_left (fun v _ => rfl)
    unfold isd_get_consumption_average_temperature
    show npMaskedMean ((List.range (c'.days * 24 + c'.seconds / 3600)).map
      (fun i => ((dataI (c'.start + i)).getD none).map (convert TUnit.degC u))) = _
    rw [h3, npMaskedMean_map_some _ (by simp [hIne]),
      convert_listMean _ _ _ hIne]

/-- C1 witness: daily stored values 50degF and 68degF over a 2-day interval
average to 59degF, and hourly stored values 10degC and 20degC over a 2-hour
interval average to 15degC = 59degF — the spec's worked example. -/
theorem C1_witness :
    ((List.range (2:Nat)).map
        (fun i => (fun k => if k = 0 then some (some (50:ℚ)) else some (some 68)) ((0 + 24 * i) / 24))
      = [(50:ℚ), 68].map (fun v => some (some v)))
    ∧ ((List.range (2:Nat)).map
        (fun i => (fun k => if k = 0 then some (some (10:ℚ)) else some (some 20)) (0 + i))
      = [(10:ℚ), 20].map (fun v => some (some v)))
    ∧ gsod_get_consumption_average_temperature
        (fun k => if k = 0 then some (some (50:ℚ)) else some (some 68)) ⟨0, 2, 0⟩ TUnit.degF
        = Except.ok (some (convert TUnit.degF TUnit.degF (listMean [(50:ℚ), 68])))
    ∧ isd_get_consumption_average_temperature
        (fun k => if k = 0 then some (some (10:ℚ)) else some (some 20)) ⟨0, 0, 7200⟩ TUnit.degF
        = some (convert TUnit.degC TUnit.degF (listMean [(10:ℚ), 20]))
    ∧ convert TUnit.degF TUnit.degF (listMean [(50:ℚ), 68]) = 59
    ∧ convert TUnit.degC TUnit.degF (listMean [(10:ℚ), 20]) = 59 := by
  have h1 : (List.range (2:Nat)).map
      (fun i => (fun k => if k = 0 then some (some (50:ℚ)) else some (some 68)) ((0 + 24 * i) / 24))
      = [(50:ℚ), 68].map (fun v => some (some v)) := by
    simp [List.range_succ]
  have h2 : (List.range (2:Nat)).map
      (fun i => (fun k => if k = 0 then some (some (10:ℚ)) else some (some 20)) (0 + i))
      = [(10:ℚ), 20].map (fun v => some (some v)) := by
    simp [List.range_succ]
  have hmain := C1_average_over_full_coverage
    (fun k => if k = 0 then some (some (50:ℚ)) else some (some 68))
    (fun k => if k = 0 then some (some (10:ℚ)) else some (some 20))
    ⟨0, 2, 0⟩ ⟨0, 0, 7200⟩ TUnit.degF [(50:ℚ), 68] [(10:ℚ), 20]
    h1 (by simp) h2 (by simp)
  refine ⟨h1, h2, hmain.1, hmain.2, ?_, ?_⟩
  · show listMean [(50:ℚ), 68] = 59
    norm_num [listMean]
  · show listMean [(10:ℚ), 20] * 9 / 5 + 32 = 59
    norm_num [listMean]

/-- C3 counterexample: for the daily GSOD source of weather.py, an interval
whose single day is missing from the stored series makes
`get_consumption_average_temperature` raise `KeyError` (`Except.error`),
contradicting the claim that the interval-average operation never raises
when all underlying points are null/missing. -/
theorem C3_counterexample :
    gsod_get_consumption_average_temperature (fun _ => none) ⟨0, 1, 0⟩ TUnit.degF
      = Except.error () := rfl

/-- C3 amended: over an interval where every underlying point is null, the
ISD (hourly) source returns the undefined/NaN result (`none`) without
raising; the GSOD (daily) source does so only when the null points are
present in the series as stored NaN values — a point absent from the series
raises `KeyError` instead (see the counterexample). -/
theorem C3_all_null_amended
    (dataG dataI : Nat → Option (Option ℚ)) (c c' : Consumption) (u u' : TUnit)
    (hG : (List.range c.days).map (fun i => dataG ((c.start + 24 * i) / 24))
        = List.replicate c.days (some none))
    (hI : (List.range (c'.days * 24 + c'.seconds / 3600)).map
        (fun i => (dataI (c'.start + i)).getD none)
        = List.replicate (c'.days * 24 + c'.seconds / 3600) none) :
    gsod_get_consumption_average_temperature dataG c u = Except.ok none
    ∧ isd_get_consumption_average_temperature dataI c' u' = none := by
  constructor
  · have hc : collectTemps dataG ((List.range c.days).map (fun i => (c.start + 24 * i) / 24))
        = some (List.replicate c.days none) := by
      apply collectTemps_of_map_eq
      refine hG.trans ?_
      rw [List.map_replicate]
    unfold gsod_get_consumption_average_temperature
    rw [hc]
    show Except.ok (npMean ((List.replicate c.days none).map (Option.map (convert TUnit.degF u)))) = _
    rw [List.map_replicate]
    show Except.ok (npMean (List.replicate c.days none)) = _
    rw [npMean_replicate_none]
  · have h3 : (List.range (c'.days * 24 + c'.seconds / 3600)).map
        (fun i => ((dataI (c'.start + i)).getD none).map (convert TUnit.degC u'))
        = List.replicate (c'.days * 24 + c'.seconds / 3600) none := by
      have h4 := congrArg (List.map (Option.map (convert TUnit.degC u'))) hI
      rw [List.map_map, List.map_replicate] at h4
      refine Eq.trans ?_ h4
      exact List.map_congr_left (fun i _ => rfl)
    unfold isd_get_consumption_average_temperature
    show npMaskedMean ((List.range (c'.days * 24 + c'.seconds / 3600)).map
      (fun i => ((dataI (c'.start + i)).getD none).map (convert TUnit.degC u'))) = none
    rw [h3]
    unfold npMaskedMean
    rw [filterMap_id_replicate_none]
    simp

/-- C3 witness: a one-day all-stored-NaN GSOD interval and a one-hour
all-missing ISD interval, both yielding the undefined result without
raising. -/
theorem C3_witness :
    ((List.range (1:Nat)).map
        (fun i => (fun _ => some (none : Option ℚ)) ((0 + 24 * i) / 24))
      = List.replicate 1 (some none))
    ∧ ((List.range (1:Nat)).map
        (fun i => ((fun _ => (none : Option (Option ℚ))) (0 + i)).getD none)
      = List.replicate 1 none)
    ∧ gsod_get_consumption_average_temperature (fun _ => some none) ⟨0, 1, 0⟩ TUnit.degC
        = Except.ok none
    ∧ isd_get_consumption_average_temperature (fun _ => none) ⟨0, 0, 3600⟩ TUnit.degC
        = none := by
  have h1 : (List.range (1:Nat)).map
      (fun i => (fun _ => some (none : Option ℚ)) ((0 + 24 * i) / 24))
      = List.replicate 1 (some none) := rfl
  have h2 : (List.range (1:Nat)).map
      (fun i => ((fun _ => (none : Option (Option ℚ))) (0 + i)).getD none)
      = List.replicate 1 none := rfl
  have hmain := C3_all_null_amended (fun _ => some none) (fun _ => none)
    ⟨0, 1, 0⟩ ⟨0, 0, 3600⟩ TUnit.degC TUnit.degC h1 h2
  exact ⟨h1, h2, hmain.1, hmain.2⟩

/-- C9: the batch interval query `get_average_temperature` maps the input
sequence of consumption periods, in input order, to a same-length sequence
whose element at position i is the average temperature of the input pair at
position i (when every per-pair call succeeds). -/
theorem C9_batch_preserves_order
    (f : Consumption → Except Unit (Option ℚ)) (history : List Consumption)
    (g : Consumption → Option ℚ)
    (h : history.map f = (history.map g).map Except.ok) :
    get_average_temperature f history = Except.ok (history.map g)
    ∧ (history.map g).length = history.length
    ∧ ∀ i (hi : i < history.length),
        (history.map g).get ⟨i, by simpa using hi⟩ = g (history.get ⟨i, hi⟩) := by
  refine ⟨?_, by simp, ?_⟩
  · induction history with
    | nil => rfl
    | cons c rest ih =>
      simp only [List.map_cons, List.cons.injEq] at h
      simp [get_average_temperature, h.1, ih h.2]
  · intro i hi
    simp

/-- C9 witness: a two-period history mapped elementwise in order. -/
theorem C9_witness :
    (([⟨0, 1, 0⟩, ⟨24, 1, 0⟩] : List Consumption).map
        (fun _ => (Except.ok none : Except Unit (Option ℚ)))
      = (([⟨0, 1, 0⟩, ⟨24, 1, 0⟩] : List Consumption).map (fun _ => (none : Option ℚ))).map
          (Except.ok : Option ℚ → Except Unit (Option ℚ)))
    ∧ get_average_temperature (fun _ => Except.ok none) [⟨0, 1, 0⟩, ⟨24, 1, 0⟩]
        = Except.ok (([⟨0, 1, 0⟩, ⟨24, 1, 0⟩] : List Consumption).map (fun _ => (none : Option ℚ))) := by
  have h : ([⟨0, 1, 0⟩, ⟨24, 1, 0⟩] : List Consumption).map
      (fun _ => (Except.ok none : Except Unit (Option ℚ)))
      = (([⟨0, 1, 0⟩, ⟨24, 1, 0⟩] : List Consumption).map (fun _ => (none : Option ℚ))).map
          (Except.ok : Option ℚ → Except Unit (Option ℚ)) := rfl
  exact ⟨h, (C9_batch_preserves_order (fun _ => Except.ok none) [⟨0, 1, 0⟩, ⟨24, 1, 0⟩]
    (fun _ => none) h).1⟩

/-! ### Helper lemmas: series, buckets, resampling -/

theorem seriesTimes_append (l m : List (Nat × Option ℚ)) :
    seriesTimes (l ++ m) = seriesTimes l ++ seriesTimes m := by
  simp [seriesTimes]

theorem bucketVals_append (l m : List (Nat × Option ℚ)) (t : Nat) :
    bucketVals (l ++ m) t = bucketVals l t ++ bucketVals m t := by
  induction l with
  | nil => simp [bucketVals]
  | cons p ps ih =>
    by_cases hp : p.1 = t
    · simp [bucketVals, hp, ih]
    · simp [bucketVals, hp, ih]

theorem mem_bucketVals {l : List (Nat × Option ℚ)} {t : Nat} {x : Option ℚ} :
    x ∈ bucketVals l t ↔ (t, x) ∈ l := by
  induction l with
  | nil => simp [bucketVals]
  | cons p ps ih =>
    obtain ⟨a, b⟩ := p
    show x ∈ (if a = t then b :: bucketVals ps t else bucketVals ps t) ↔ _
    by_cases hp : a = t
    · subst hp
      rw [if_pos rfl, List.mem_cons, List.mem_cons, ih]
      simp [Prod.ext_iff, eq_comm]
    · rw [if_neg hp, ih, List.mem_cons]
      constructor
      · exact fun h => Or.inr h
      · rintro (h | h)
        · exact absurd (congrArg Prod.fst h).symm hp
        · exact h

theorem filterMap_id_of_all_none {xs : List (Option ℚ)}
    (h : ∀ x ∈ xs, x = none) : xs.filterMap id = [] := by
  induction xs with
  | nil => rfl
  | cons a l ih =>
    have ha : a = none := h a (List.mem_cons_self a l)
    subst ha
    simp [ih (fun x hx => h x (List.mem_cons_of_mem _ hx))]

theorem bucketMean_append_none {S : List (Option ℚ)} (B : List (Option ℚ))
    (h : ∀ x ∈ S, x = none) : bucketMean (S ++ B) = bucketMean B := by
  unfold bucketMean
  rw [List.filterMap_append, filterMap_id_of_all_none h, List.nil_append]

theorem bucketMean_single (x : Option ℚ) : bucketMean [x] = x := by
  cases x with
  | none => simp [bucketMean]
  | some q => simp [bucketMean, listMean]

theorem listMean_mean_cons (k : List ℚ) (h : k ≠ []) :
    listMean (listMean k :: k) = listMean k := by
  have hn : (k.length : ℚ) ≠ 0 :=
    Nat.cast_ne_zero.mpr (fun hh => h (List.length_eq_zero.mp hh))
  unfold listMean
  rw [List.sum_cons, List.length_cons]
  push_cast
  field_simp
  ring

theorem bucketMean_cons_self (B : List (Option ℚ)) :
    bucketMean (bucketMean B :: B) = bucketMean B := by
  by_cases hk : B.filterMap id = []
  · have hB : bucketMean B = none := by simp [bucketMean, hk]
    rw [hB]
    show bucketMean (none :: B) = none
    unfold bucketMean
    have : (none :: B).filterMap id = B.filterMap id := by simp
    rw [this, hk]
    simp
  · have hB : bucketMean B = some (listMean (B.filterMap id)) := by
      simp [bucketMean, hk]
    rw [hB]
    show bucketMean (some (listMean (B.filterMap id)) :: B) = _
    unfold bucketMean
    have hcons : (some (listMean (B.filterMap id)) :: B).filterMap id
        = listMean (B.filterMap id) :: B.filterMap id := by simp
    rw [hcons, if_neg (by simp), listMean_mean_cons _ hk]

theorem seriesTimes_denseFrom (f : Nat → Option ℚ) :
    ∀ (n lo : Nat), seriesTimes (denseFrom f lo n) = List.range' lo n := by
  intro n
  induction n with
  | zero => intro lo; rfl
  | succ m ih =>
    intro lo
    show lo :: seriesTimes (denseFrom f (lo + 1) m) = lo :: List.range' (lo + 1) m
    rw [ih (lo + 1)]

theorem bucketVals_denseFrom (f : Nat → Option ℚ) :
    ∀ (n lo t : Nat), bucketVals (denseFrom f lo n) t
      = if lo ≤ t ∧ t < lo + n then [f t] else [] := by
  intro n
  induction n with
  | zero =>
    intro lo t
    rw [if_neg (by omega)]
    rfl
  | succ m ih =>
    intro lo t
    show bucketVals ((lo, f lo) :: denseFrom f (lo + 1) m) t = _
    by_cases hlo : lo = t
    · subst hlo
      have h1 : bucketVals (denseFrom f (lo + 1) m) lo = [] := by
        rw [ih (lo + 1) lo, if_neg (by omega)]
      simp [bucketVals, h1, if_pos (by omega : lo ≤ lo ∧ lo < lo + (m + 1))]
    · have h1 : bucketVals (denseFrom f (lo + 1) m) t
          = if lo + 1 ≤ t ∧ t < lo + 1 + m then [f t] else [] := ih (lo + 1) t
      simp only [bucketVals, if_neg hlo, h1]
      by_cases h2 : lo + 1 ≤ t ∧ t < lo + 1 + m
      · rw [if_pos h2, if_pos (by omega)]
      · rw [if_neg h2, if_neg (by omega)]

theorem denseFrom_congr (f g : Nat → Option ℚ) :
    ∀ (n lo : Nat), (∀ t, lo ≤ t → t < lo + n → f t = g t) →
      denseFrom f lo n = denseFrom g lo n := by
  intro n
  induction n with
  | zero => intro lo _; rfl
  | succ m ih =>
    intro lo h
    show (lo, f lo) :: denseFrom f (lo + 1) m = (lo, g lo) :: denseFrom g (lo + 1) m
    rw [h lo (le_refl lo) (by omega), ih (lo + 1) (fun t h1 h2 => h t (by omega) (by omega))]

theorem denseFrom_ne_nil (f : Nat → Option ℚ) (lo n : Nat) (h : 0 < n) :
    denseFrom f lo n ≠ [] := by
  cases n with
  | zero => exact absurd h (by omega)
  | succ m => exact fun he => List.cons_ne_nil _ _ he

theorem listMin_le : ∀ {l : List Nat}, ∀ x ∈ l, listMin l ≤ x := by
  intro l
  induction l with
  | nil => intro x hx; cases hx
  | cons a l ih =>
    intro x hx
    cases l with
    | nil =>
      rcases List.mem_cons.mp hx with h | h
      · simp [listMin, h]
      · cases h
    | cons b m =>
      rcases List.mem_cons.mp hx with h | h
      · subst h
        exact min_le_left _ _
      · exact le_trans (min_le_right _ _) (ih x h)

theorem le_listMax : ∀ {l : List Nat}, ∀ x ∈ l, x ≤ listMax l := by
  intro l
  induction l with
  | nil => intro x hx; cases hx
  | cons a l ih =>
    intro x hx
    cases l with
    | nil =>
      rcases List.mem_cons.mp hx with h | h
      · simp [listMax, h]
      · cases h
    | cons b m =>
      rcases List.mem_cons.mp hx with h | h
      · subst h
        exact le_max_left _ _
      · exact le_trans (ih x h) (le_max_right _ _)

theorem listMin_mem : ∀ {l : List Nat}, l ≠ [] → listMin l ∈ l := by
  intro l
  induction l with
  | nil => intro h; exact absurd rfl h
  | cons a l ih =>
    intro _
    cases l with
    | nil => simp [listMin]
    | cons b m =>
      show min a (listMin (b :: m)) ∈ a :: b :: m
      rcases le_total a (listMin (b :: m)) with h | h
      · rw [min_eq_left h]
        exact List.mem_cons_self _ _
      · rw [min_eq_right h]
        exact List.mem_cons_of_mem _ (ih (List.cons_ne_nil _ _))

theorem listMax_mem : ∀ {l : List Nat}, l ≠ [] → listMax l ∈ l := by
  intro l
  induction l with
  | nil => intro h; exact absurd rfl h
  | cons a l ih =>
    intro _
    cases l with
    | nil => simp [listMax]
    | cons b m =>
      show max a (listMax (b :: m)) ∈ a :: b :: m
      rcases le_total a (listMax (b :: m)) with h | h
      · rw [max_eq_right h]
        exact List.mem_cons_of_mem _ (ih (List.cons_ne_nil _ _))
      · rw [max_eq_left h]
        exact List.mem_cons_self _ _

theorem listMin_eq_of (l : List Nat) (a : Nat) (ha : a ∈ l)
    (hall : ∀ x ∈ l, a ≤ x) : listMin l = a :=
  le_antisymm (listMin_le a ha)
    (hall _ (listMin_mem (List.ne_nil_of_mem ha)))

theorem listMax_eq_of (l : List Nat) (a : Nat) (ha : a ∈ l)
    (hall : ∀ x ∈ l, x ≤ a) : listMax l = a :=
  le_antisymm (hall _ (listMax_mem (List.ne_nil_of_mem ha)))
    (le_listMax a ha)

theorem resampleMean_eq (pts : List (Nat × Option ℚ)) (h : pts ≠ []) :
    resampleMean pts
      = denseFrom (fun t => bucketMean (bucketVals pts t))
          (listMin (seriesTimes pts))
          (listMax (seriesTimes pts) - listMin (seriesTimes pts) + 1) := by
  cases pts with
  | nil => exact absurd rfl h
  | cons p ps => rfl

theorem seriesTimes_ne_nil {pts : List (Nat × Option ℚ)} (h : pts ≠ []) :
    seriesTimes pts ≠ [] := by
  cases pts with
  | nil => exact absurd rfl h
  | cons p ps => exact List.cons_ne_nil _ _

theorem mem_seriesTimes_resampleMean {pts : List (Nat × Option ℚ)} {t : Nat}
    (h : pts ≠ []) :
    t ∈ seriesTimes (resampleMean pts) ↔
      listMin (seriesTimes pts) ≤ t ∧ t ≤ listMax (seriesTimes pts) := by
  rw [resampleMean_eq pts h, seriesTimes_denseFrom, List.mem_range'_1]
  have hlm : listMin (seriesTimes pts) ≤ listMax (seriesTimes pts) :=
    listMin_le _ (listMax_mem (seriesTimes_ne_nil h))
  omega

theorem mem_seriesTimes_mergeAppend {s b : List (Nat × Option ℚ)} {t : Nat}
    (h : t ∈ seriesTimes (s ++ b)) : t ∈ seriesTimes (mergeAppend s b) := by
  have hne : s ++ b ≠ [] := by
    intro he
    rw [he] at h
    cases h
  unfold mergeAppend
  rw [mem_seriesTimes_resampleMean hne]
  exact ⟨listMin_le t h, le_listMax t h⟩

theorem mergeAppend_twice (s b : List (Nat × Option ℚ))
    (h : ∀ p ∈ b, ∀ q ∈ s, q.1 = p.1 → q.2 = none) :
    mergeAppend (mergeAppend s b) b = mergeAppend s b := by
  by_cases hsb : s ++ b = []
  · have hs : s = [] := (List.append_eq_nil.mp hsb).1
    have hb : b = [] := (List.append_eq_nil.mp hsb).2
    subst hs
    subst hb
    rfl
  · have hstne : seriesTimes (s ++ b) ≠ [] := seriesTimes_ne_nil hsb
    have hlohi : listMin (seriesTimes (s ++ b)) ≤ listMax (seriesTimes (s ++ b)) :=
      listMin_le _ (listMax_mem hstne)
    have h1 : mergeAppend s b
        = denseFrom (fun t => bucketMean (bucketVals (s ++ b) t))
            (listMin (seriesTimes (s ++ b)))
            (listMax (seriesTimes (s ++ b)) - listMin (seriesTimes (s ++ b)) + 1) :=
      resampleMean_eq _ hsb
    rw [h1]
    have honce_ne : denseFrom (fun t => bucketMean (bucketVals (s ++ b) t))
        (listMin (seriesTimes (s ++ b)))
        (listMax (seriesTimes (s ++ b)) - listMin (seriesTimes (s ++ b)) + 1) ≠ [] :=
      denseFrom_ne_nil _ _ _ (by omega)
    have hne2 : denseFrom (fun t => bucketMean (bucketVals (s ++ b) t))
        (listMin (seriesTimes (s ++ b)))
        (listMax (seriesTimes (s ++ b)) - listMin (seriesTimes (s ++ b)) + 1) ++ b ≠ [] := by
      intro he
      exact honce_ne (List.append_eq_nil.mp he).1
    unfold mergeAppend
    rw [resampleMean_eq _ hne2]
    have htimes : seriesTimes (denseFrom (fun t => bucketMean (bucketVals (s ++ b) t))
        (listMin (seriesTimes (s ++ b)))
        (listMax (seriesTimes (s ++ b)) - listMin (seriesTimes (s ++ b)) + 1) ++ b)
        = List.range' (listMin (seriesTimes (s ++ b)))
            (listMax (seriesTimes (s ++ b)) - listMin (seriesTimes (s ++ b)) + 1)
          ++ seriesTimes b := by
      rw [seriesTimes_append, seriesTimes_denseFrom]
    have hbsub : ∀ t ∈ seriesTimes b,
        listMin (seriesTimes (s ++ b)) ≤ t ∧ t ≤ listMax (seriesTimes (s ++ b)) := by
      intro t ht
      have hmem : t ∈ seriesTimes (s ++ b) := by
        rw [seriesTimes_append]
        exact List.mem_append_right _ ht
      exact ⟨listMin_le t hmem, le_listMax t hmem⟩
    have hminq : listMin (seriesTimes (denseFrom (fun t => bucketMean (bucketVals (s ++ b) t))
        (listMin (seriesTimes (s ++ b)))
        (listMax (seriesTimes (s ++ b)) - listMin (seriesTimes (s ++ b)) + 1) ++ b))
        = listMin (seriesTimes (s ++ b)) := by
      apply listMin_eq_of
      · rw [htimes]
        apply List.mem_append_left
        rw [List.mem_range'_1]
        omega
      · intro x hx
        rw [htimes] at hx
        rcases List.mem_append.mp hx with hx | hx
        · rw [List.mem_range'_1] at hx
          omega
        · exact (hbsub x hx).1
    have hmaxq : listMax (seriesTimes (denseFrom (fun t => bucketMean (bucketVals (s ++ b) t))
        (listMin (seriesTimes (s ++ b)))
        (listMax (seriesTimes (s ++ b)) - listMin (seriesTimes (s ++ b)) + 1) ++ b))
        = listMax (seriesTimes (s ++ b)) := by
      apply listMax_eq_of
      · rw [htimes]
        apply List.mem_append_left
        rw [List.mem_range'_1]
        omega
      · intro x hx
        rw [htimes] at hx
        rcases List.mem_append.mp hx with hx | hx
        · rw [List.mem_range'_1] at hx
          omega
        · exact (hbsub x hx).2
    rw [hminq, hmaxq]
    apply denseFrom_congr
    intro t ht1 ht2
    rw [bucketVals_append, bucketVals_denseFrom, if_pos ⟨ht1, ht2⟩]
    by_cases hB : bucketVals b t = []
    · rw [hB, List.append_nil]
      exact bucketMean_single _
    · obtain ⟨x, hx⟩ := List.exists_mem_of_ne_nil _ hB
      have hpt : (t, x) ∈ b := mem_bucketVals.mp hx
      have hS : ∀ v ∈ bucketVals s t, v = none := by
        intro v hv
        exact h (t, x) hpt (t, v) (mem_bucketVals.mp hv) rfl
      have hFt : bucketMean (bucketVals (s ++ b) t) = bucketMean (bucketVals b t) := by
        rw [bucketVals_append]
        exact bucketMean_append_none _ hS
      show bucketMean (bucketMean (bucketVals (s ++ b) t) :: bucketVals b t)
        = bucketMean (bucketVals (s ++ b) t)
      rw [hFt]
      exact bucketMean_cons_self _

/-! ### Claim C2 (merge idempotence) -/

/-- C2 counterexample: a series already holding value 0 at a timestamp,
merged with a batch holding value 2 at the same timestamp, yields 1 (the
bucket mean) after one merge but 3/2 after merging the identical batch a
second time — `append`-then-`resample().mean()` re-averages the already
averaged bucket, so the merge is not idempotent when the prior series has a
non-null value in a batch bucket. -/
theorem C2_counterexample :
    mergeAppend (mergeAppend [(0, some 0)] [(0, some 2)]) [(0, some 2)]
      ≠ mergeAppend [(0, some 0)] [(0, some 2)] := by
  have h1 : mergeAppend [(0, some 0)] [(0, some 2)] = [(0, some 1)] := by
    norm_num [mergeAppend, resampleMean, seriesTimes, listMin, listMax, denseFrom,
      bucketVals, bucketMean, listMean, List.filterMap_cons]
  have h2 : mergeAppend [(0, some 1)] [(0, some 2)] = [(0, some (3/2))] := by
    norm_num [mergeAppend, resampleMean, seriesTimes, listMin, listMax, denseFrom,
      bucketVals, bucketMean, listMean, List.filterMap_cons]
  rw [h1, h2]
  intro he
  have hq : (3 / 2 : ℚ) = 1 := by
    have := List.head_eq_of_cons_eq he
    simpa using this
  norm_num at hq

/-- C2 amended: the merge step (`append`, sort, `resample().mean()`) is
idempotent — merging the same batch twice equals merging it once — provided
the existing series has only null values (or no entry at all) at every
timestamp occurring in the batch; this covers `add_year`'s standard case of
a year not yet in the series.  When the series already holds a non-null
value in a batch bucket, the second merge re-averages and changes it (see
the counterexample). -/
theorem C2_merge_idempotent_amended (s b : List (Nat × Option ℚ))
    (h : ∀ p ∈ b, ∀ q ∈ s, q.1 = p.1 → q.2 = none) :
    mergeAppend (mergeAppend s b) b = mergeAppend s b :=
  mergeAppend_twice s b h

/-- C2 witness: a series with a null entry at timestamp 0 merged twice with
a batch carrying a value at timestamp 1. -/
theorem C2_witness :
    (∀ p ∈ [((1:Nat), some (2:ℚ))], ∀ q ∈ [((0:Nat), (none : Option ℚ))],
        q.1 = p.1 → q.2 = none)
    ∧ mergeAppend (mergeAppend [(0, none)] [(1, some 2)]) [(1, some 2)]
        = mergeAppend [(0, none)] [(1, some 2)] := by
  have h : ∀ p ∈ [((1:Nat), some (2:ℚ))], ∀ q ∈ [((0:Nat), (none : Option ℚ))],
      q.1 = p.1 → q.2 = none := by
    intro p hp q hq _
    simp only [List.mem_singleton] at hq
    rw [hq]
  exact ⟨h, C2_merge_idempotent_amended [(0, none)] [(1, some 2)] h⟩

/-! ### Helper lemmas: add_year state machine -/

theorem mem_insertYear_self (y : Nat) (l : List Nat) : y ∈ insertYear y l := by
  unfold insertYear
  split_ifs with h
  · exact h
  · exact List.mem_append_right _ (List.mem_singleton.mpr rfl)

theorem mem_insertYear_of_mem {x y : Nat} {l : List Nat} (h : x ∈ l) :
    x ∈ insertYear y l := by
  unfold insertYear
  split_ifs
  · exact h
  · exact List.mem_append_left _ h

theorem mem_insertYear_cases {x y : Nat} {l : List Nat} (h : x ∈ insertYear y l) :
    x = y ∨ x ∈ l := by
  unfold insertYear at h
  split_ifs at h with h1
  · exact Or.inr h
  · rcases List.mem_append.mp h with h2 | h2
    · exact Or.inr h2
    · exact Or.inl (List.mem_singleton.mp h2)

theorem gsod_add_year_attempted_mono {x : Nat} (client : Nat → List GsodDay)
    (year : Nat) (force : Bool) (s : WeatherState) (h : x ∈ s.attempted) :
    x ∈ (gsod_add_year client year force s).attempted := by
  unfold gsod_add_year
  split_ifs with h1 h2
  · exact h
  · exact h
  · exact mem_insertYear_of_mem h

theorem gsod_add_year_self_attempted (client : Nat → List GsodDay)
    (year : Nat) (force : Bool) (s : WeatherState) :
    year ∈ (gsod_add_year client year force s).attempted := by
  unfold gsod_add_year
  split_ifs with h1 h2
  · exact h1.2
  · exact h1.2
  · exact mem_insertYear_self _ _

theorem gsod_add_year_attempted_step {year : Nat} (client : Nat → List GsodDay)
    (s : WeatherState) (h : year ∈ s.attempted) :
    (gsod_add_year client year false s).attempted = s.attempted
    ∧ (gsod_add_year client year false s).fetchLog = s.fetchLog := by
  unfold gsod_add_year
  rw [if_pos ⟨rfl, h⟩]
  split_ifs with h2
  · exact ⟨rfl, rfl⟩
  · exact ⟨rfl, rfl⟩

theorem gsod_add_year_count (client : Nat → List GsodDay) (year : Nat)
    (s : WeatherState) (y : Nat) :
    (gsod_add_year client year false s).fetchLog.count y
      ≤ s.fetchLog.count y + (if year = y then 1 else 0) := by
  by_cases h1 : year ∈ s.attempted
  · rw [(gsod_add_year_attempted_step client s h1).2]
    split_ifs <;> omega
  · unfold gsod_add_year
    rw [if_neg (fun hc => h1 hc.2)]
    show (s.fetchLog ++ [year]).count y ≤ _
    rw [List.count_append]
    by_cases hyy : year = y
    · subst hyy
      rw [if_pos rfl]
      have h4 : List.count year [year] = 1 := by simp
      omega
    · rw [if_neg hyy]
      have h4 : List.count y [year] = 0 :=
        List.count_eq_zero.mpr (fun hm => hyy (List.mem_singleton.mp hm).symm)
      omega

theorem gsod_fold_attempted_mem (client : Nat → List GsodDay) :
    ∀ (ys : List Nat) (s : WeatherState) (y : Nat),
      y ∈ ys ∨ y ∈ s.attempted →
      y ∈ (ys.foldl (fun st y' => gsod_add_year client y' false st) s).attempted := by
  intro ys
  induction ys with
  | nil =>
    intro s y h
    rcases h with h | h
    · cases h
    · exact h
  | cons a l ih =>
    intro s y h
    show y ∈ (l.foldl (fun st y' => gsod_add_year client y' false st)
      (gsod_add_year client a false s)).attempted
    apply ih
    rcases h with h | h
    · rcases List.mem_cons.mp h with h | h
      · subst h
        exact Or.inr (gsod_add_year_self_attempted client y false s)
      · exact Or.inl h
    · exact Or.inr (gsod_add_year_attempted_mono client a false s h)

theorem gsod_fold_no_fetch (client : Nat → List GsodDay) :
    ∀ (ys : List Nat) (s : WeatherState),
      (∀ y ∈ ys, y ∈ s.attempted) →
      (ys.foldl (fun st y' => gsod_add_year client y' false st) s).fetchLog = s.fetchLog
      ∧ (ys.foldl (fun st y' => gsod_add_year client y' false st) s).attempted
          = s.attempted := by
  intro ys
  induction ys with
  | nil => exact fun s _ => ⟨rfl, rfl⟩
  | cons a l ih =>
    intro s h
    have hstep := gsod_add_year_attempted_step client s (h a (List.mem_cons_self a l))
    have ih' := ih (gsod_add_year client a false s)
      (fun y hy => by rw [hstep.1]; exact h y (List.mem_cons_of_mem _ hy))
    exact ⟨ih'.1.trans hstep.2, ih'.2.trans hstep.1⟩

theorem gsod_fold_count (client : Nat → List GsodDay) :
    ∀ (ys : List Nat) (s : WeatherState) (y : Nat),
      (ys.foldl (fun st y' => gsod_add_year client y' false st) s).fetchLog.count y
        ≤ s.fetchLog.count y + ys.count y := by
  intro ys
  induction ys with
  | nil =>
    intro s y
    simp
  | cons a l ih =>
    intro s y
    have h1 := ih (gsod_add_year client a false s) y
    have h2 := gsod_add_year_count client a s y
    have h3 : (a :: l).count y = l.count y + (if a = y then 1 else 0) := by
      by_cases hay : a = y
      · subst hay
        simp [List.count_cons]
      · have hya : ¬ (y = a) := fun he => hay he.symm
        simp [List.count_cons, hya, hay]
    show (l.foldl (fun st y' => gsod_add_year client y' false st)
      (gsod_add_year client a false s)).fetchLog.count y ≤ _
    rw [h3]
    split_ifs at h2 ⊢ <;> omega

theorem count_range'_le_one (a n y : Nat) : (List.range' a n).count y ≤ 1 := by
  induction n generalizing a with
  | zero => simp
  | succ m ih =>
    show (a :: List.range' (a + 1) m).count y ≤ 1
    rw [List.count_cons]
    by_cases hya : y = a
    · subst hya
      have h0 : (List.range' (y + 1) m).count y = 0 :=
        List.count_eq_zero.mpr (fun hm => by
          rw [List.mem_range'_1] at hm
          omega)
      simp [h0]
    · have h1 := ih (a + 1)
      have hay : ¬ (a = y) := fun he => hya he.symm
      have h2 : (if (a == y) = true then 1 else 0) = 0 := by simp [hay]
      omega

/-! ### Claims C4 and C6 (fetch suppression and forcing) -/

/-- C4: within one session, calling `add_year_range` twice with the same
range and `force=False` issues at most one remote fetch per year: the
second pass adds nothing to the fetch log, and across both passes any given
year appears at most once more in the fetch log than before. -/
theorem C4_at_most_one_fetch_per_year (client : Nat → List GsodDay)
    (startYear endYear : Nat) (s : WeatherState) (y : Nat) :
    (gsod_add_year_range client startYear endYear false
        (gsod_add_year_range client startYear endYear false s)).fetchLog
      = (gsod_add_year_range client startYear endYear false s).fetchLog
    ∧ (gsod_add_year_range client startYear endYear false
          (gsod_add_year_range client startYear endYear false s)).fetchLog.count y
        ≤ s.fetchLog.count y + 1 := by
  have h1 : ∀ y' ∈ List.range' startYear (endYear + 1 - startYear),
      y' ∈ (gsod_add_year_range client startYear endYear false s).attempted := by
    intro y' hy'
    exact gsod_fold_attempted_mem client _ s y' (Or.inl hy')
  have h2 := gsod_fold_no_fetch client (List.range' startYear (endYear + 1 - startYear))
    (gsod_add_year_range client startYear endYear false s) h1
  have h3 := gsod_fold_count client (List.range' startYear (endYear + 1 - startYear)) s y
  have h4 := count_range'_le_one startYear (endYear + 1 - startYear) y
  refine ⟨h2.1, ?_⟩
  have h5 : (gsod_add_year_range client startYear endYear false
      (gsod_add_year_range client startYear endYear false s)).fetchLog
      = (gsod_add_year_range client startYear endYear false s).fetchLog := h2.1
  rw [h5]
  have h6 : (gsod_add_year_range client startYear endYear false s).fetchLog.count y
      ≤ s.fetchLog.count y + (List.range' startYear (endYear + 1 - startYear)).count y := h3
  omega

/-- C6: `add_year` with `force=True` always performs a remote fetch,
regardless of the attempted set and of the stored series, for both the
daily GSOD and the hourly ISD source. -/
theorem C6_force_always_fetches (cg : Nat → List GsodDay) (ci : Nat → List IsdHour)
    (year : Nat) (s sisd : WeatherState) :
    (gsod_add_year cg year true s).fetchLog = s.fetchLog ++ [year]
    ∧ (isd_add_year ci year true sisd).fetchLog = sisd.fetchLog ++ [year] := by
  constructor
  · unfold gsod_add_year
    rw [if_neg (fun hc => Bool.noConfusion hc.1)]
  · unfold isd_add_year
    rw [if_neg (fun hc => Bool.noConfusion hc.1)]

/-! ### Helper lemmas: key coverage (C7, C10) -/

theorem seriesTimes_setVal {l : List (Nat × Option ℚ)} {k : Nat} {v : Option ℚ}
    {t : Nat} (h : t ∈ seriesTimes l) : t ∈ seriesTimes (setVal l k v) := by
  unfold setVal
  split_ifs with hk
  · rcases List.mem_map.mp h with ⟨p, hp, hpt⟩
    apply List.mem_map.mpr
    by_cases hpk : p.1 = k
    · exact ⟨(k, v), List.mem_map.mpr ⟨p, hp, by rw [if_pos hpk]⟩, by rw [← hpt, hpk]⟩
    · exact ⟨p, List.mem_map.mpr ⟨p, hp, by rw [if_neg hpk]⟩, hpt⟩
  · rw [seriesTimes_append]
    exact List.mem_append_left _ h

theorem gsod_new_series_keys {data : List GsodDay} {year t : Nat}
    (h : t ∈ seriesTimes (gsod_empty_series year)) :
    t ∈ seriesTimes (gsod_new_series data year) := by
  unfold gsod_new_series
  suffices H : ∀ (ds : List GsodDay) (acc : List (Nat × Option ℚ)),
      t ∈ seriesTimes acc →
      t ∈ seriesTimes (ds.foldl
        (fun acc day => if day.temp_C.isSome then setVal acc day.date day.temp_C else acc)
        acc) from H data _ h
  intro ds
  induction ds with
  | nil => exact fun acc h => h
  | cons d l ih =>
    intro acc hacc
    apply ih
    show t ∈ seriesTimes (if d.temp_C.isSome = true then setVal acc d.date d.temp_C else acc)
    split_ifs
    · exact seriesTimes_setVal hacc
    · exact hacc

theorem gsod_empty_series_keys {year d : Nat} (h : d < daysInYear year) :
    dayCode year d ∈ seriesTimes (gsod_empty_series year) := by
  unfold gsod_empty_series
  rw [seriesTimes_denseFrom, List.mem_range'_1]
  unfold dayCode
  omega

theorem denseFrom_none_vals :
    ∀ (n lo : Nat) (p : Nat × Option ℚ),
      p ∈ denseFrom (fun _ => none) lo n → p.2 = none := by
  intro n
  induction n with
  | zero => intro lo p hp; cases hp
  | succ m ih =>
    intro lo p hp
    rcases List.mem_cons.mp hp with h | h
    · rw [h]
    · exact ih (lo + 1) p h

/-! ### Claim C7 (full-year keys, monotone growth) -/

/-- C7: on any state satisfying the reachability invariant (every attempted
year is fully keyed), `add_year` leaves every native daily timestamp of the
requested year present as a key of the GSOD series (null-valued where no
reading exists), preserves the invariant, and never removes a timestamp
from the series index. -/
theorem C7_year_fully_keyed (client : Nat → List GsodDay) (year : Nat) (force : Bool)
    (s : WeatherState) (hinv : gsodInvariant s) :
    gsodYearCovered year (gsod_add_year client year force s).tempC
    ∧ gsodInvariant (gsod_add_year client year force s)
    ∧ ∀ t ∈ seriesTimes s.tempC, t ∈ seriesTimes (gsod_add_year client year force s).tempC := by
  unfold gsod_add_year
  split_ifs with h1 h2
  · exact ⟨hinv year h1.2, hinv, fun t ht => ht⟩
  · have hmono : ∀ t ∈ seriesTimes s.tempC,
        t ∈ seriesTimes (mergeAppend s.tempC (gsod_empty_series year)) := by
      intro t ht
      apply mem_seriesTimes_mergeAppend
      rw [seriesTimes_append]
      exact List.mem_append_left _ ht
    have hcov : gsodYearCovered year (mergeAppend s.tempC (gsod_empty_series year)) := by
      intro d hd
      apply mem_seriesTimes_mergeAppend
      rw [seriesTimes_append]
      exact List.mem_append_right _ (gsod_empty_series_keys hd)
    exact ⟨hcov, fun y' hy' d hd => hmono _ (hinv y' hy' d hd), hmono⟩
  · have hmono : ∀ t ∈ seriesTimes s.tempC,
        t ∈ seriesTimes (mergeAppend s.tempC (gsod_new_series (client year) year)) := by
      intro t ht
      apply mem_seriesTimes_mergeAppend
      rw [seriesTimes_append]
      exact List.mem_append_left _ ht
    have hcov : gsodYearCovered year
        (mergeAppend s.tempC (gsod_new_series (client year) year)) := by
      intro d hd
      apply mem_seriesTimes_mergeAppend
      rw [seriesTimes_append]
      exact List.mem_append_right _ (gsod_new_series_keys (gsod_empty_series_keys hd))
    refine ⟨hcov, ?_, hmono⟩
    intro y' hy'
    rcases mem_insertYear_cases hy' with hy' | hy'
    · subst hy'
      exact hcov
    · exact fun d hd => hmono _ (hinv y' hy' d hd)

/-- C7 witness: the freshly constructed state (empty attempted set, empty
series) satisfies the invariant, and a first `add_year` fully keys year 0. -/
theorem C7_witness :
    gsodInvariant { attempted := [], tempC := [], cachedSeries := none, fetchLog := [] }
    ∧ (gsodYearCovered 0 (gsod_add_year (fun _ => []) 0 false
          { attempted := [], tempC := [], cachedSeries := none, fetchLog := [] }).tempC
      ∧ gsodInvariant (gsod_add_year (fun _ => []) 0 false
          { attempted := [], tempC := [], cachedSeries := none, fetchLog := [] })
      ∧ ∀ t ∈ seriesTimes ([] : List (Nat × Option ℚ)),
          t ∈ seriesTimes (gsod_add_year (fun _ => []) 0 false
            { attempted := [], tempC := [], cachedSeries := none, fetchLog := [] }).tempC) := by
  have hinv : gsodInvariant
      { attempted := [], tempC := [], cachedSeries := none, fetchLog := [] } := by
    intro y hy
    cases hy
  exact ⟨hinv, C7_year_fully_keyed (fun _ => []) 0 false _ hinv⟩

/-! ### Claim C10 (attempted year, missing anchor) -/

/-- C10: with `force=False`, a year already in the attempted set whose
year-start anchor timestamp is absent from the series triggers no remote
fetch; instead the all-null year series is appended, the whole series
re-sorted and resampled, and the result saved to cache — in both the GSOD
and the ISD source. -/
theorem C10_attempted_year_missing_anchor (cg : Nat → List GsodDay)
    (ci : Nat → List IsdHour) (year : Nat) (s s2 : WeatherState)
    (hg1 : year ∈ s.attempted) (hg2 : ¬ gsod_year_in_series year s.tempC)
    (hi1 : year ∈ s2.attempted) (hi2 : ¬ isd_year_in_series year s2.tempC) :
    gsod_add_year cg year false s
      = { s with
            tempC := mergeAppend s.tempC (gsod_empty_series year)
            cachedSeries := some (mergeAppend s.tempC (gsod_empty_series year)) }
    ∧ (gsod_add_year cg year false s).fetchLog = s.fetchLog
    ∧ (gsod_add_year cg year false s).attempted = s.attempted
    ∧ (∀ p ∈ gsod_empty_series year, p.2 = none)
    ∧ isd_add_year ci year false s2
      = { s2 with
            tempC := mergeAppend s2.tempC (isd_empty_series year)
            cachedSeries := some (mergeAppend s2.tempC (isd_empty_series year)) }
    ∧ (isd_add_year ci year false s2).fetchLog = s2.fetchLog
    ∧ (∀ p ∈ isd_empty_series year, p.2 = none) := by
  have hg : gsod_add_year cg year false s
      = { s with
            tempC := mergeAppend s.tempC (gsod_empty_series year)
            cachedSeries := some (mergeAppend s.tempC (gsod_empty_series year)) } := by
    unfold gsod_add_year
    rw [if_pos ⟨rfl, hg1⟩, if_neg hg2]
  have hi : isd_add_year ci year false s2
      = { s2 with
            tempC := mergeAppend s2.tempC (isd_empty_series year)
            cachedSeries := some (mergeAppend s2.tempC (isd_empty_series year)) } := by
    unfold isd_add_year
    rw [if_pos ⟨rfl, hi1⟩, if_neg hi2]
  refine ⟨hg, by rw [hg], by rw [hg], ?_, hi, by rw [hi], ?_⟩
  · intro p hp
    exact denseFrom_none_vals _ _ p hp
  · intro p hp
    exact denseFrom_none_vals _ _ p hp

/-- C10 witness: a state with year 5 attempted but with an empty series. -/
theorem C10_witness :
    ((5 : Nat) ∈ [(5 : Nat)]
    ∧ ¬ gsod_year_in_series 5 []
    ∧ ¬ isd_year_in_series 5 [])
    ∧ (gsod_add_year (fun _ => []) 5 false
        { attempted := [5], tempC := [], cachedSeries := none, fetchLog := [] }).fetchLog = []
    ∧ (gsod_add_year (fun _ => []) 5 false
        { attempted := [5], tempC := [], cachedSeries := none, fetchLog := [] })
      = { attempted := [5]
          tempC := mergeAppend [] (gsod_empty_series 5)
          cachedSeries := some (mergeAppend [] (gsod_empty_series 5))
          fetchLog := [] } := by
  have hg2 : ¬ gsod_year_in_series 5 [] := by
    intro h
    cases h
  have hi2 : ¬ isd_year_in_series 5 [] := by
    intro h
    cases h
  have hmain := C10_attempted_year_missing_anchor (fun _ => []) (fun _ => []) 5
    { attempted := [5], tempC := [], cachedSeries := none, fetchLog := [] }
    { attempted := [5], tempC := [], cachedSeries := none, fetchLog := [] }
    (List.mem_singleton.mpr rfl) hg2 (List.mem_singleton.mpr rfl) hi2
  exact ⟨⟨List.mem_singleton.mpr rfl, hg2, hi2⟩, hmain.2.1, hmain.1⟩

/-! ### Claim C8 (freshness check on construction) -/

/-- C8 counterexample: construction on January 1 of year 1 (so "yesterday"
is the last day of year 0, present in the cached series with a null value)
forces a re-fetch of year 0 — yesterday's year — and of nothing else; the
current year 1 is not fetched, contradicting the claim that the forced
re-fetch targets the current year. -/
theorem C8_counterexample :
    (check_for_recent_data (fun _ => []) (1, 0)
        { attempted := [], tempC := [(365, none)], cachedSeries := none
          fetchLog := [] }).fetchLog = [0]
    ∧ (1 : Nat) ∉ (check_for_recent_data (fun _ => []) (1, 0)
        { attempted := [], tempC := [(365, none)], cachedSeries := none
          fetchLog := [] }).fetchLog := by
  have h1 : (check_for_recent_data (fun _ => []) (1, 0)
      { attempted := [], tempC := [(365, none)], cachedSeries := none,
        fetchLog := [] }).fetchLog = [0] := rfl
  refine ⟨h1, ?_⟩
  rw [h1]
  simp

/-- C8 amended: whenever yesterday's timestamp (relative to the external
clock `today`) is present in the series with a null value, the freshness
check performs exactly one forced re-fetch — of yesterday's year, which is
the current year except when today is January 1. -/
theorem C8_freshness_amended (client : Nat → List GsodDay) (today : Nat × Nat)
    (s : WeatherState)
    (h : lookupSeries s.tempC
        (dayCode (predDay today.1 today.2).1 (predDay today.1 today.2).2) = some none) :
    check_for_recent_data client today s
      = gsod_add_year client (predDay today.1 today.2).1 true s
    ∧ (check_for_recent_data client today s).fetchLog
      = s.fetchLog ++ [(predDay today.1 today.2).1] := by
  have h1 : check_for_recent_data client today s
      = gsod_add_year client (predDay today.1 today.2).1 true s := by
    simp only [check_for_recent_data]
    rw [h]
  refine ⟨h1, ?_⟩
  rw [h1]
  unfold gsod_add_year
  rw [if_neg (fun hc => Bool.noConfusion hc.1)]

/-- C8 witness: today is day 5 of year 2; yesterday (day 4 of year 2) is in
the series and null, so year 2 is re-fetched once with force. -/
theorem C8_witness :
    lookupSeries [((736 : Nat), (none : Option ℚ))]
        (dayCode (predDay 2 5).1 (predDay 2 5).2) = some none
    ∧ check_for_recent_data (fun _ => []) (2, 5)
        { attempted := [], tempC := [(736, none)], cachedSeries := none, fetchLog := [] }
      = gsod_add_year (fun _ => []) (predDay 2 5).1 true
        { attempted := [], tempC := [(736, none)], cachedSeries := none, fetchLog := [] }
    ∧ (check_for_recent_data (fun _ => []) (2, 5)
        { attempted := [], tempC := [(736, none)], cachedSeries := none
          fetchLog := [] }).fetchLog = [] ++ [(predDay 2 5).1] := by
  have h : lookupSeries [((736 : Nat), (none : Option ℚ))]
      (dayCode (predDay 2 5).1 (predDay 2 5).2) = some none := rfl
  have hmain := C8_freshness_amended (fun _ => []) (2, 5)
    { attempted := [], tempC := [(736, none)], cachedSeries := none, fetchLog := [] } h
  exact ⟨h, hmain.1, hmain.2⟩

/-! ### Claim C5 (unsupported index frequency) -/

/-- C5: `indexed_temperatures` on a daily-only GSOD source fails with the
unsupported-frequency `ValueError` for an hourly index and for any
non-daily, non-hourly frequency string; on the hourly-capable ISD source it
fails for any frequency other than daily or hourly.  In each case the
result is the error, never partial data. -/
theorem C5_unsupported_frequency (cg : Nat → List GsodDay) (ci : Nat → List IsdHour)
    (yearsG labelsG yearsI labelsI : List Nat) (fstr : String) (u : TUnit)
    (s s2 s3 : WeatherState) :
    (gsod_indexed_temperatures cg ⟨Freq.other fstr, yearsG, labelsG⟩ u s).2
        = Except.error ("DatetimeIndex frequency " ++ fstr ++ " not supported, please resample.")
    ∧ (gsod_indexed_temperatures cg ⟨Freq.H, yearsG, labelsG⟩ u s2).2
        = Except.error "DatetimeIndex frequency H not supported, please resample to at least daily frequency D."
    ∧ (isd_indexed_temperatures ci ⟨Freq.other fstr, yearsI, labelsI⟩ u s3).2
        = Except.error ("DatetimeIndex frequency " ++ fstr ++ " not supported, please resample.") :=
  ⟨rfl, rfl, rfl⟩
